import Mathlib

/-!
Shallow embedding of `reading_app/main.py`: a countdown-enforced,
input-locked modal window. Configuration loading (`load_config`), rules
rendering (`load_rules_html`) and the enforcement state machine of
`ReadWindow` are translated into executable Lean definitions, and the
spec's claims about them are settled below. The Windows branch
(`IS_WINDOWS = True`) is the modelled platform, since the keyboard-hook
and cursor claims concern it; platform API calls that cannot fail in the
model (SetWindowPos, SetCursorPos, raise, activateWindow) are identity on
the modelled state. Monotonic time is modelled by `ℚ`, `math.ceil` by
`Int.ceil`, Python exceptions by `Except Unit`.
-/

set_option autoImplicit false

namespace ReadingApp

/-- JSON values as produced by `json.load`; numbers are restricted to the
integers, which is all the configuration schema uses. -/
inductive Json where
  | null
  | bool (b : Bool)
  | num (n : Int)
  | str (s : String)
  | arr (elems : List Json)
  | obj (fields : List (String × Json))

/-- Python dict lookup `data[k]` / `data.get(k)` on the association-list
representation of a JSON object (keys are unique in a parsed object). -/
def lookupKey (l : List (String × Json)) (k : String) : Option Json :=
  match l with
  | [] => none
  | (k', v) :: rest => if k = k' then some v else lookupKey rest k

/-- Python membership test `k in data` for a dict. -/
def hasKey (l : List (String × Json)) (k : String) : Bool :=
  (lookupKey l k).isSome

/-- Python dict assignment `data[k] = v`: replaces the value in place when
the key exists, appends the pair otherwise. -/
def setKey (l : List (String × Json)) (k : String) (v : Json) : List (String × Json) :=
  match l with
  | [] => [(k, v)]
  | (k', v') :: rest => if k = k' then (k', v) :: rest else (k', v') :: setKey rest k v

/-- The `default["window"]` sub-record of `load_config`. -/
def defaultWindowFields : List (String × Json) :=
  [("width", Json.num 900), ("height", Json.num 600)]

/-- The built-in `default` record of `load_config`, in source order. -/
def defaultFields : List (String × Json) :=
  [ ("title", Json.str "电子阅览室规章制度")
  , ("lock_seconds", Json.num 5)
  , ("window", Json.obj defaultWindowFields)
  , ("font_point_size", Json.num 12)
  , ("requirements_markdown", Json.str "rules.md") ]

/-- The value returned by `load_config` when it falls back to defaults. -/
def defaultConfig : Json := Json.obj defaultFields

/-- The merge loop `for k, v in default.items(): if k not in data: data[k] = v`,
for an arbitrary list of default items. -/
def mergeAbsent (defaults : List (String × Json)) (data : List (String × Json)) :
    List (String × Json) :=
  defaults.foldl (fun acc kv => if hasKey acc kv.1 then acc else setKey acc kv.1 kv.2) data

/-- The nested-window fixup of `load_config`: replace `data["window"]` by the
default window record when absent or not a dict, otherwise fill in absent
`width`/`height` sub-keys. -/
def fixWindow (data : List (String × Json)) : List (String × Json) :=
  match lookupKey data "window" with
  | some (Json.obj wfields) => setKey data "window" (Json.obj (mergeAbsent defaultWindowFields wfields))
  | _ => setKey data "window" (Json.obj defaultWindowFields)

/-- The on-disk configuration file: `none` when `config.json` does not exist,
`some (Except.error ())` when opening/reading/parsing raises, `some (Except.ok j)`
when it parses to the JSON value `j`. -/
def ConfigFile : Type := Option (Except Unit Json)

/-- `load_config`. A missing file yields the defaults; an exception while
reading or parsing yields the defaults; a parsed object is merged shallowly
with the defaults (top level, then the `window` sub-record). A file that
parses to a non-object raises inside the merge loop (string/list membership
followed by an indexed assignment, or `in` on a number, raises `TypeError`),
which the surrounding `except` turns into the defaults as well. -/
def load_config (file : ConfigFile) : Json :=
  match file with
  | none => defaultConfig
  | some (Except.error _) => defaultConfig
  | some (Except.ok (Json.obj data)) => Json.obj (fixWindow (mergeAbsent defaultFields data))
  | some (Except.ok _) => defaultConfig

/-- The rules file on disk: absent, present but unreadable (`read_text`
raises), or present with the given text. -/
inductive FileState where
  | absent
  | unreadable
  | present (text : String)
deriving DecidableEq, Repr

/-- The HTML-escape fallback `text.replace("&", "&amp;").replace("<", "&lt;").replace(">", "&gt;")`. -/
def escapeHtml (t : String) : String :=
  ((t.replace "&" "&amp;").replace "<" "&lt;").replace ">" "&gt;"

/-- The two right-alignment replacements applied to the rendered markdown. -/
def alignReplacements (h : String) : String :=
  (h.replace "<p>桂林中学图书馆</p>" "<p style=\"text-align: right;\">桂林中学图书馆</p>").replace
    "<p>2025年10月1日</p>" "<p style=\"text-align: right;\">2025年10月1日</p>"

/-- The f-string wrapping that injects the heading-centering style. -/
def styledHtml (content : String) : String :=
  "\n        <style>\n            h1 \x7b text-align: center; \x7d\n        </style>\n        "
    ++ content ++ "\n        "

/-- The literal placeholder returned when the rules file does not exist. -/
def rulesPlaceholder : String := "<p>规则内容未找到。</p>"

/-- `load_rules_html`. `render` is `markdown.markdown` when the `markdown`
module imported (`some`), `none` otherwise. A missing file yields the
placeholder; a present file is read with `read_text`, which has no
exception handler in this function, so an unreadable file propagates the
exception (`Except.error`). -/
def load_rules_html (file : FileState) (render : Option (String → String)) :
    Except Unit String :=
  match file with
  | FileState.absent => Except.ok rulesPlaceholder
  | FileState.unreadable => Except.error ()
  | FileState.present text =>
    match render with
    | some md => Except.ok (styledHtml (alignReplacements (md text)))
    | none => Except.ok ("<pre>" ++ escapeHtml text ++ "</pre>")

/-! ## The enforcement window state machine -/

/-- Windows keyboard-hook message constants. -/
def WM_KEYDOWN : Nat := 0x0100
/-- `WM_KEYUP`. -/
def WM_KEYUP : Nat := 0x0101
/-- `WM_SYSKEYDOWN`. -/
def WM_SYSKEYDOWN : Nat := 0x0104
/-- `WM_SYSKEYUP`. -/
def WM_SYSKEYUP : Nat := 0x0105

/-- What the low-level keyboard hook callback does with an event: return 1
(`block`, the event is swallowed) or forward it via `CallNextHookEx`
(`pass`). -/
inductive HookResult where
  | block
  | pass
deriving DecidableEq, Repr

/-- The content of the `info` label, one constructor per `setText` site:
the `__init__` prompt, the countdown text written by `update_info`, and the
released text written by `release_enforcement`. -/
inductive InfoText where
  | initial (lockSeconds : Int)
  | countdown (n : Int)
  | released
deriving DecidableEq, Repr

/-- The mutable state of a `ReadWindow` (Windows variant), together with the
machine cursor-display counter manipulated through `ShowCursor`. Timers and
the hook handle are booleans: `true` when the timer is running / the hook
handle is installed, `false` when the attribute is `None`. -/
structure ReadWindowState where
  lock_seconds : Int
  remaining : Int
  deadline : Option ℚ
  mouse_lock_timer : Bool
  countdown_timer : Bool
  kb_hook : Bool
  kb_proc : Bool
  cursor_hidden : Bool
  showCursorCounter : Int
  close_btn_enabled : Bool
  info : InfoText
deriving DecidableEq, Repr

/-- The body of `low_level_proc`: block while `self.remaining > 0` and the
event is an actionable key message, otherwise call `CallNextHookEx`. The
callback closes over `self`, so it reads whatever `self.remaining` is at
event time. -/
def low_level_proc (remaining : Int) (nCode : Int) (wParam : Nat) : HookResult :=
  if 0 < remaining ∧ nCode = 0 ∧
      (wParam = WM_KEYDOWN ∨ wParam = WM_SYSKEYDOWN ∨ wParam = WM_KEYUP ∨ wParam = WM_SYSKEYUP)
  then HookResult.block
  else HookResult.pass

/-- `install_keyboard_blocker` (success path of `SetWindowsHookExW`): a no-op
when a hook is already installed, otherwise record the callback and the
hook handle. -/
def install_keyboard_blocker (s : ReadWindowState) : ReadWindowState :=
  if s.kb_hook then s else { s with kb_proc := true, kb_hook := true }

/-- `uninstall_keyboard_blocker`: unhook if installed (exceptions swallowed),
then — in the `finally` block — clear the handle and the callback
reference. -/
def uninstall_keyboard_blocker (s : ReadWindowState) : ReadWindowState :=
  { s with kb_hook := false, kb_proc := false }

/-- `release_enforcement`: stop and clear both timers, clear the deadline,
restore the cursor only when it was hidden (`ShowCursor(True)` increments the
display counter), uninstall the keyboard hook, set the released info text and
enable the close button. -/
def release_enforcement (s : ReadWindowState) : ReadWindowState :=
  let s1 := if s.countdown_timer then { s with countdown_timer := false } else s
  let s2 := { s1 with deadline := none }
  let s3 := if s2.mouse_lock_timer then { s2 with mouse_lock_timer := false } else s2
  let s4 :=
    if s3.cursor_hidden then
      { s3 with showCursorCounter := s3.showCursorCounter + 1, cursor_hidden := false }
    else s3
  let s5 := uninstall_keyboard_blocker s4
  { s5 with info := InfoText.released, close_btn_enabled := true }

/-- `_tick`, at monotonic time `now`: a no-op when `self._deadline is None`;
otherwise recompute `rem = ceil(deadline - now)`; when it reached zero, zero
`remaining` and run the release sequence; otherwise redraw the label only
when the rounded value changed. -/
def tick (s : ReadWindowState) (now : ℚ) : ReadWindowState :=
  match s.deadline with
  | none => s
  | some d =>
    let rem : Int := ⌈d - now⌉
    if rem ≤ 0 then release_enforcement { s with remaining := 0 }
    else if rem ≠ s.remaining then { s with remaining := rem, info := InfoText.countdown rem }
    else s

/-- Folding a sequence of countdown ticks, earliest first. -/
def tickSeq (s : ReadWindowState) (ts : List ℚ) : ReadWindowState :=
  ts.foldl tick s

/-- `start_enforcement`: install the hook, start the mouse-lock timer, hide
the cursor (`ShowCursor(False)` decrements the display counter), set
`deadline = now + lock_seconds` (`now` is the first `time.monotonic()` call),
start the countdown timer, and initialise `remaining` from the deadline at
the second `time.monotonic()` call `now2`. -/
def start_enforcement (s : ReadWindowState) (now now2 : ℚ) : ReadWindowState :=
  let s1 := install_keyboard_blocker s
  let s2 := { s1 with mouse_lock_timer := true }
  let s3 := { s2 with showCursorCounter := s2.showCursorCounter - 1, cursor_hidden := true }
  let s4 := { s3 with deadline := some (now + (s3.lock_seconds : ℚ)), countdown_timer := true }
  let rem : Int := max 0 ⌈(now + (s3.lock_seconds : ℚ)) - now2⌉
  { s4 with remaining := rem, info := InfoText.countdown rem }

/-- `closeEvent`: `event.ignore()` then `force_topmost()`. The boolean is
whether the close request was accepted; `force_topmost` only issues
window-manager calls (SetWindowPos, raise, activateWindow) and leaves the
enforcement state untouched. -/
def closeEvent (s : ReadWindowState) : ReadWindowState × Bool :=
  (s, false)

/-- `safe_close`: run the release sequence, then quit the application and
exit the process. The boolean records whether the process terminates. -/
def safe_close (s : ReadWindowState) : ReadWindowState × Bool :=
  (release_enforcement s, true)

/-- Python `int()` applied to a JSON-derived value, as far as the
configuration schema needs it: integers are themselves, booleans are 0/1,
decimal strings parse, anything else raises. -/
def pyInt (v : Json) : Except Unit Int :=
  match v with
  | Json.num n => Except.ok n
  | Json.bool b => Except.ok (if b then 1 else 0)
  | Json.str s =>
    match s.trim.toInt? with
    | some n => Except.ok n
    | none => Except.error ()
  | _ => Except.error ()

/-- The `lock_seconds` computation of `ReadWindow.__init__`:
`cfg_lock = CFG.get("lock_seconds")` (which is `None` both when the key is
absent and when its value is JSON `null`), then
`max(1, int(cfg_lock if cfg_lock is not None else lock_seconds))`. -/
def windowLockSeconds (cfg : Json) (lock_seconds_arg : Int) : Except Unit Int :=
  let cfg_lock : Option Json :=
    match cfg with
    | Json.obj l => lookupKey l "lock_seconds"
    | _ => none
  let chosen : Except Unit Int :=
    match cfg_lock with
    | none => Except.ok lock_seconds_arg
    | some Json.null => Except.ok lock_seconds_arg
    | some v => pyInt v
  chosen.map (fun n => max 1 n)

/-- `ReadWindow.__init__` with configuration `cfg` and the `lock_seconds`
argument (the program calls it with 5): the window starts with
`remaining = lock_seconds`, no deadline, no timers, no hook, visible cursor,
a disabled close button and the initial prompt. -/
def mkReadWindow (cfg : Json) (lock_seconds_arg : Int) : Except Unit ReadWindowState :=
  (windowLockSeconds cfg lock_seconds_arg).map fun ls =>
    { lock_seconds := ls
    , remaining := ls
    , deadline := none
    , mouse_lock_timer := false
    , countdown_timer := false
    , kb_hook := false
    , kb_proc := false
    , cursor_hidden := false
    , showCursorCounter := 0
    , close_btn_enabled := false
    , info := InfoText.initial ls }

/-- Reading a field of the configuration record returned by `load_config`
(`CFG.get(k)` on an object). -/
def configLookup (c : Json) (k : String) : Option Json :=
  match c with
  | Json.obj l => lookupKey l k
  | _ => none

/-- The relation between the enforcement state and the monotonic clock that
`start_enforcement` establishes and `tick` maintains: either the window is
still LOCKED with `remaining` the clamped rounded time to the deadline `d`
as of time `t`, or it is RELEASED with `remaining` zeroed. -/
def CountdownInv (d : ℚ) (t : ℚ) (s : ReadWindowState) : Prop :=
  (s.deadline = some d ∧ s.remaining = max 0 ⌈d - t⌉) ∨ (s.deadline = none ∧ s.remaining = 0)

/-- The window state right after `ReadWindow(lock_seconds=5)` under the
built-in default configuration. -/
def initWindow : ReadWindowState :=
  { lock_seconds := 5
  , remaining := 5
  , deadline := none
  , mouse_lock_timer := false
  , countdown_timer := false
  , kb_hook := false
  , kb_proc := false
  , cursor_hidden := false
  , showCursorCounter := 0
  , close_btn_enabled := false
  , info := InfoText.initial 5 }

/-- A representative LOCKED state: mid-countdown, both timers running, hook
installed, cursor hidden, close button disabled. -/
def lockedSample : ReadWindowState :=
  { lock_seconds := 5
  , remaining := 5
  , deadline := some 5
  , mouse_lock_timer := true
  , countdown_timer := true
  , kb_hook := true
  , kb_proc := true
  , cursor_hidden := true
  , showCursorCounter := -1
  , close_btn_enabled := false
  , info := InfoText.countdown 5 }

/-! ## Structural lemmas -/

/-- `release_enforcement` written as a single record update. -/
theorem release_enforcement_eq (s : ReadWindowState) :
    release_enforcement s =
      { s with
        countdown_timer := false
      , deadline := none
      , mouse_lock_timer := false
      , cursor_hidden := false
      , showCursorCounter :=
          if s.cursor_hidden then s.showCursorCounter + 1 else s.showCursorCounter
      , kb_hook := false
      , kb_proc := false
      , info := InfoText.released
      , close_btn_enabled := true } := by
  simp only [release_enforcement, uninstall_keyboard_blocker]
  by_cases h1 : s.countdown_timer <;> by_cases h2 : s.mouse_lock_timer <;>
    by_cases h3 : s.cursor_hidden <;> simp [h1, h2, h3]

theorem release_remaining (s : ReadWindowState) :
    (release_enforcement s).remaining = s.remaining := by
  rw [release_enforcement_eq]

theorem release_deadline (s : ReadWindowState) :
    (release_enforcement s).deadline = none := by
  rw [release_enforcement_eq]

/-- A tick with no deadline set is a no-op. -/
theorem tick_none (s : ReadWindowState) (now : ℚ) (h : s.deadline = none) :
    tick s now = s := by
  simp [tick, h]

/-- After any tick from a LOCKED state, `remaining` is the rounded-up time to
the deadline, clamped to be non-negative. -/
theorem tick_remaining_eq (s : ReadWindowState) (d now : ℚ) (h : s.deadline = some d) :
    (tick s now).remaining = max 0 ⌈d - now⌉ := by
  simp only [tick, h]
  by_cases h1 : (⌈d - now⌉ : Int) ≤ 0
  · rw [if_pos h1, release_remaining, max_eq_left h1]
  · rw [if_neg h1]
    push_neg at h1
    by_cases h2 : (⌈d - now⌉ : Int) = s.remaining
    · rw [if_neg (not_not.mpr h2), ← h2, max_eq_right h1.le]
    · rw [if_pos h2]
      exact (max_eq_right h1.le).symm

theorem tick_deadline_of_pos (s : ReadWindowState) (d now : ℚ) (h : s.deadline = some d)
    (hpos : 0 < ⌈d - now⌉) : (tick s now).deadline = some d := by
  simp only [tick, h]
  rw [if_neg (not_le.mpr hpos)]
  by_cases h2 : (⌈d - now⌉ : Int) ≠ s.remaining
  · rw [if_pos h2]
  · rw [if_neg h2]; exact h

theorem tick_of_expired (s : ReadWindowState) (d now : ℚ) (h : s.deadline = some d)
    (hexp : ⌈d - now⌉ ≤ 0) : tick s now = release_enforcement { s with remaining := 0 } := by
  simp [tick, h, hexp]

/-- A tick re-establishes the countdown invariant at the tick's own time:
`remaining` is recomputed from the deadline, never carried forward. -/
theorem countdownInv_tick {d t t' : ℚ} {s : ReadWindowState}
    (h : CountdownInv d t s) : CountdownInv d t' (tick s t') := by
  rcases h with ⟨hd, _⟩ | ⟨hd, hr⟩
  · by_cases h1 : (⌈d - t'⌉ : Int) ≤ 0
    · right
      refine ⟨?_, ?_⟩
      · rw [tick_of_expired s d t' hd h1, release_deadline]
      · rw [tick_remaining_eq s d t' hd, max_eq_left h1]
    · left
      push_neg at h1
      exact ⟨tick_deadline_of_pos s d t' hd h1, tick_remaining_eq s d t' hd⟩
  · rw [tick_none s t' hd]
    exact Or.inr ⟨hd, hr⟩

theorem countdownInv_remaining {d t : ℚ} {s : ReadWindowState} (h : CountdownInv d t s) :
    0 ≤ s.remaining ∧ s.remaining ≤ max 0 ⌈d - t⌉ := by
  rcases h with ⟨_, hr⟩ | ⟨_, hr⟩
  · exact ⟨(le_max_left 0 _).trans hr.ge, hr.le⟩
  · exact ⟨hr.ge, hr.le.trans (le_max_left _ _)⟩

theorem tickSeq_nil (s : ReadWindowState) : tickSeq s [] = s := rfl

theorem tickSeq_cons (s : ReadWindowState) (t : ℚ) (ts : List ℚ) :
    tickSeq s (t :: ts) = tickSeq (tick s t) ts := rfl

theorem tickSeq_append (s : ReadWindowState) (ts1 ts2 : List ℚ) :
    tickSeq s (ts1 ++ ts2) = tickSeq (tickSeq s ts1) ts2 := by
  simp [tickSeq, List.foldl_append]

/-- Running a sequence of ticks preserves the countdown invariant, now
anchored at the last tick time. -/
theorem tickSeq_inv (d : ℚ) (ts : List ℚ) :
    ∀ (t₀ : ℚ) (s : ReadWindowState), CountdownInv d t₀ s →
      CountdownInv d (ts.getLastD t₀) (tickSeq s ts) := by
  induction ts with
  | nil => exact fun t₀ s h => h
  | cons t ts ih =>
    intro t₀ s h
    rw [tickSeq_cons, List.getLastD_cons]
    exact ih t (tick s t) (countdownInv_tick h)

theorem chain_getLastD {t₀ : ℚ} {ts1 ts2 : List ℚ}
    (h : List.Chain (· ≤ ·) t₀ (ts1 ++ ts2)) :
    List.Chain (· ≤ ·) (ts1.getLastD t₀) ts2 := by
  induction ts1 generalizing t₀ with
  | nil => exact h
  | cons t ts1 ih =>
    rcases List.chain_cons.mp h with ⟨_, hc⟩
    rw [List.getLastD_cons]
    exact ih hc

theorem chain_le_getLastD {t₀ : ℚ} {ts : List ℚ} (h : List.Chain (· ≤ ·) t₀ ts) :
    t₀ ≤ ts.getLastD t₀ := by
  induction ts generalizing t₀ with
  | nil => exact le_refl _
  | cons t ts ih =>
    rcases List.chain_cons.mp h with ⟨h01, hc⟩
    rw [List.getLastD_cons]
    exact le_trans h01 (ih hc)

/-- Over non-decreasing tick times, `remaining` never increases. -/
theorem tickSeq_remaining_le (d : ℚ) (ts : List ℚ) :
    ∀ (t₀ : ℚ) (s : ReadWindowState), CountdownInv d t₀ s →
      List.Chain (· ≤ ·) t₀ ts → (tickSeq s ts).remaining ≤ s.remaining := by
  induction ts with
  | nil => exact fun _ _ _ _ => le_refl _
  | cons t ts ih =>
    intro t₀ s h hc
    rcases List.chain_cons.mp hc with ⟨h01, hc'⟩
    rw [tickSeq_cons]
    refine (ih t (tick s t) (countdownInv_tick h) hc').trans ?_
    rcases h with ⟨hd, hr⟩ | ⟨hd, _⟩
    · rw [tick_remaining_eq s d t hd, hr]
      exact max_le_max (le_refl 0) (Int.ceil_mono (sub_le_sub_left h01 d))
    · rw [tick_none s t hd]

/-! ## Lookup lemmas for the configuration merge -/

theorem lookup_setKey_self (l : List (String × Json)) (k : String) (v : Json) :
    lookupKey (setKey l k v) k = some v := by
  induction l with
  | nil => simp [setKey, lookupKey]
  | cons kv rest ih =>
    obtain ⟨k', v'⟩ := kv
    by_cases h : k = k'
    · simp [setKey, lookupKey, h]
    · simp [setKey, lookupKey, h, ih]

theorem lookup_setKey_ne (l : List (String × Json)) (k k' : String) (v : Json)
    (h : k' ≠ k) : lookupKey (setKey l k v) k' = lookupKey l k' := by
  induction l with
  | nil => simp [setKey, lookupKey, h]
  | cons kv rest ih =>
    obtain ⟨k₁, v₁⟩ := kv
    by_cases h1 : k = k₁
    · subst h1
      simp [setKey, lookupKey, h]
    · by_cases h2 : k' = k₁ <;> simp [setKey, lookupKey, h1, h2, ih]

theorem lookup_none_of_not_mem (l : List (String × Json)) (k : String)
    (h : k ∉ l.map Prod.fst) : lookupKey l k = none := by
  induction l with
  | nil => rfl
  | cons kv rest ih =>
    obtain ⟨k₁, v₁⟩ := kv
    rw [List.map_cons, List.mem_cons, not_or] at h
    simp [lookupKey, h.1, ih h.2]

/-- The default-filling fold: when the default keys are distinct, a lookup
prefers the data's own value and falls back to the defaults. -/
theorem lookup_mergeAbsent (ds : List (String × Json)) :
    ∀ (data : List (String × Json)) (k : String), (ds.map Prod.fst).Nodup →
      lookupKey (mergeAbsent ds data) k = (lookupKey data k).or (lookupKey ds k) := by
  induction ds with
  | nil =>
    intro data k _
    cases h : lookupKey data k <;> simp [mergeAbsent, lookupKey, h, Option.or]
  | cons kv ds ih =>
    intro data k hnd
    obtain ⟨k₁, v₁⟩ := kv
    rw [List.map_cons, List.nodup_cons] at hnd
    obtain ⟨hk₁, hnd'⟩ := hnd
    have hstep : mergeAbsent ((k₁, v₁) :: ds) data
        = mergeAbsent ds (if hasKey data k₁ then data else setKey data k₁ v₁) := rfl
    rw [hstep, ih _ k hnd']
    by_cases hk : k = k₁
    · subst hk
      rw [lookup_none_of_not_mem ds k hk₁]
      by_cases hh : hasKey data k
      · rw [if_pos hh, hasKey] at *
        obtain ⟨v, hv⟩ := Option.isSome_iff_exists.mp hh
        simp [hv, lookupKey, Option.or]
      · rw [if_neg hh]
        rw [hasKey] at hh
        have hdn : lookupKey data k = none := Option.not_isSome_iff_eq_none.mp hh
        simp [lookup_setKey_self, hdn, lookupKey, Option.or]
    · have hcons : lookupKey ((k₁, v₁) :: ds) k = lookupKey ds k := by
        simp [lookupKey, hk]
      rw [hcons]
      by_cases hh : hasKey data k₁
      · rw [if_pos hh]
      · rw [if_neg hh, lookup_setKey_ne data k₁ k v₁ hk]

theorem lookup_fixWindow_ne (m : List (String × Json)) (k : String) (h : k ≠ "window") :
    lookupKey (fixWindow m) k = lookupKey m k := by
  cases hw : lookupKey m "window" with
  | none => simp [fixWindow, hw, lookup_setKey_ne _ _ _ _ h]
  | some j => cases j <;> simp [fixWindow, hw, lookup_setKey_ne _ _ _ _ h]

theorem lookup_fixWindow_obj (m : List (String × Json)) (w : List (String × Json))
    (h : lookupKey m "window" = some (Json.obj w)) :
    lookupKey (fixWindow m) "window"
      = some (Json.obj (mergeAbsent defaultWindowFields w)) := by
  simp [fixWindow, h, lookup_setKey_self]

theorem lookup_fixWindow_other (m : List (String × Json))
    (h : ∀ w, lookupKey m "window" ≠ some (Json.obj w)) :
    lookupKey (fixWindow m) "window" = some (Json.obj defaultWindowFields) := by
  cases hw : lookupKey m "window" with
  | none => simp [fixWindow, hw, lookup_setKey_self]
  | some j =>
    cases j with
    | obj w => exact absurd hw (h w)
    | null => simp [fixWindow, hw, lookup_setKey_self]
    | bool b => simp [fixWindow, hw, lookup_setKey_self]
    | num n => simp [fixWindow, hw, lookup_setKey_self]
    | str s => simp [fixWindow, hw, lookup_setKey_self]
    | arr xs => simp [fixWindow, hw, lookup_setKey_self]

/-- The LOCKED sample state is what the program actually reaches: construct
the window under the default configuration and start enforcement at
monotonic time 0. -/
theorem lockedSample_reachable :
    mkReadWindow defaultConfig 5 = Except.ok initWindow
  ∧ start_enforcement initWindow 0 0 = lockedSample := by
  refine ⟨rfl, ?_⟩
  simp only [start_enforcement, install_keyboard_blocker, initWindow, lockedSample]
  norm_num

/-! ## Claims -/

/-- C2 (counterexample): for a rules file that exists but cannot be read,
`load_rules_html` propagates the exception instead of returning the
placeholder. -/
theorem load_rules_unreadable_raises :
    load_rules_html FileState.unreadable none = Except.error ()
  ∧ load_rules_html FileState.unreadable none ≠ Except.ok rulesPlaceholder :=
  ⟨rfl, by simp [load_rules_html]⟩

/-- C2 (amended): when the rules file is missing, `load_rules_html` returns
the literal placeholder markup (under either renderer) and startup
continues; when the file exists but reading it raises, the exception
propagates out of `load_rules_html`. -/
theorem load_rules_missing_placeholder :
    (∀ render : Option (String → String),
        load_rules_html FileState.absent render = Except.ok rulesPlaceholder)
  ∧ (∀ render : Option (String → String),
        load_rules_html FileState.unreadable render = Except.error ()) :=
  ⟨fun _ => rfl, fun _ => rfl⟩

/-- C1 (counterexample): `safe_close` invoked on a reachable LOCKED state
(deadline set, countdown positive, dismiss control disabled) is not a no-op:
it terminates the process and changes the enforcement state. -/
theorem safe_close_locked_not_noop :
    lockedSample.deadline = some 5
  ∧ (0 : Int) < lockedSample.remaining
  ∧ lockedSample.close_btn_enabled = false
  ∧ (safe_close lockedSample).2 = true
  ∧ (safe_close lockedSample).1 ≠ lockedSample := by
  refine ⟨rfl, by decide, rfl, rfl, ?_⟩
  simp [safe_close, release_enforcement, uninstall_keyboard_blocker, lockedSample]

/-- C1 (amended): `safe_close` unconditionally runs the release sequence and
terminates the process, from any state including LOCKED; the restriction of
dismissal to RELEASED is enforced only through the dismiss control's enabled
flag, which is false from construction, stays unchanged across LOCKED ticks,
and becomes true exactly when the release sequence runs. -/
theorem safe_close_always_releases_and_exits :
    (∀ s : ReadWindowState, safe_close s = (release_enforcement s, true))
  ∧ (∀ s : ReadWindowState, (release_enforcement s).close_btn_enabled = true)
  ∧ (∀ (cfg : Json) (arg : Int) (st : ReadWindowState),
        mkReadWindow cfg arg = Except.ok st → st.close_btn_enabled = false)
  ∧ (∀ (s : ReadWindowState) (d now : ℚ), s.deadline = some d → 0 < ⌈d - now⌉ →
        (tick s now).close_btn_enabled = s.close_btn_enabled) := by
  refine ⟨fun s => rfl, fun s => by rw [release_enforcement_eq], ?_, ?_⟩
  · intro cfg arg st h
    cases he : windowLockSeconds cfg arg with
    | error e =>
      rw [mkReadWindow, he] at h
      exact absurd h (by simp [Except.map])
    | ok ls =>
      rw [mkReadWindow, he] at h
      injection h with h'
      rw [← h']
  · intro s d now hd hpos
    simp only [tick, hd]
    rw [if_neg (not_le.mpr hpos)]
    by_cases h2 : (⌈d - now⌉ : Int) ≠ s.remaining
    · rw [if_pos h2]
    · rw [if_neg h2]

/-- Witness for the amended C1 theorem at a concrete construction. -/
theorem safe_close_always_releases_and_exits_witness :
    mkReadWindow defaultConfig 5 = Except.ok initWindow
  ∧ initWindow.close_btn_enabled = false :=
  ⟨rfl, safe_close_always_releases_and_exits.2.2.1 defaultConfig 5 initWindow rfl⟩

/-- C3: throughout LOCKED, `remaining` is recomputed on every tick as
`ceil(deadline - now)` clamped to be non-negative (and is initialised that
way by `start_enforcement`); it is non-negative and non-increasing along any
non-decreasing sequence of tick times; and the displayed countdown text is
rewritten only when the rounded value differs from the current one (the tick
is a strict no-op otherwise). -/
theorem remaining_recompute_monotone :
    (∀ (s : ReadWindowState) (d now : ℚ), s.deadline = some d →
        (tick s now).remaining = max 0 ⌈d - now⌉)
  ∧ (∀ (s : ReadWindowState) (now now2 : ℚ),
        (start_enforcement s now now2).deadline = some (now + (s.lock_seconds : ℚ))
      ∧ (start_enforcement s now now2).remaining
          = max 0 ⌈(now + (s.lock_seconds : ℚ)) - now2⌉)
  ∧ (∀ (s : ReadWindowState) (d t₀ : ℚ) (ts1 ts2 : List ℚ),
        s.deadline = some d → s.remaining = max 0 ⌈d - t₀⌉ →
        List.Chain (· ≤ ·) t₀ (ts1 ++ ts2) →
        0 ≤ (tickSeq s (ts1 ++ ts2)).remaining
      ∧ (tickSeq s (ts1 ++ ts2)).remaining ≤ (tickSeq s ts1).remaining)
  ∧ (∀ (s : ReadWindowState) (d now : ℚ), s.deadline = some d →
        0 < ⌈d - now⌉ → ⌈d - now⌉ = s.remaining → tick s now = s)
  ∧ (∀ (s : ReadWindowState) (d now : ℚ), s.deadline = some d →
        0 < ⌈d - now⌉ → ⌈d - now⌉ ≠ s.remaining →
        tick s now
          = { s with remaining := ⌈d - now⌉, info := InfoText.countdown ⌈d - now⌉ }) := by
  refine ⟨tick_remaining_eq, ?_, ?_, ?_, ?_⟩
  · intro s now now2
    by_cases hk : s.kb_hook <;>
      simp [start_enforcement, install_keyboard_blocker, hk]
  · intro s d t₀ ts1 ts2 hd hr hc
    have hinv : CountdownInv d t₀ s := Or.inl ⟨hd, hr⟩
    constructor
    · exact (countdownInv_remaining (tickSeq_inv d (ts1 ++ ts2) t₀ s hinv)).1
    · rw [tickSeq_append]
      exact tickSeq_remaining_le d ts2 _ _ (tickSeq_inv d ts1 t₀ s hinv) (chain_getLastD hc)
  · intro s d now hd hpos heq
    simp only [tick, hd]
    rw [if_neg (not_le.mpr hpos), if_neg (not_not.mpr heq)]
  · intro s d now hd hpos hne
    simp only [tick, hd]
    rw [if_neg (not_le.mpr hpos), if_pos hne]

/-- Witness for C3 at the sample LOCKED state and tick time 2. -/
theorem remaining_recompute_monotone_witness :
    lockedSample.deadline = some 5
  ∧ (tick lockedSample 2).remaining = max 0 ⌈(5 : ℚ) - 2⌉ :=
  ⟨rfl, remaining_recompute_monotone.1 lockedSample 5 2 rfl⟩

/-- C4: the release sequence is idempotent — a second invocation from any
state reproduces the same end state (timers stopped and cleared, deadline
cleared, hook handle and callback cleared, dismiss enabled, the cursor
display counter incremented only when the cursor was hidden, hence restored
exactly once) — and after release every countdown tick is a no-op, so the
LOCKED to RELEASED transition cannot fire again. -/
theorem release_enforcement_idempotent :
    (∀ s : ReadWindowState, release_enforcement (release_enforcement s) = release_enforcement s)
  ∧ (∀ s : ReadWindowState,
        (release_enforcement s).countdown_timer = false
      ∧ (release_enforcement s).mouse_lock_timer = false
      ∧ (release_enforcement s).deadline = none
      ∧ (release_enforcement s).kb_hook = false
      ∧ (release_enforcement s).kb_proc = false
      ∧ (release_enforcement s).close_btn_enabled = true
      ∧ (release_enforcement s).cursor_hidden = false
      ∧ (release_enforcement s).showCursorCounter
          = (if s.cursor_hidden then s.showCursorCounter + 1 else s.showCursorCounter))
  ∧ (∀ (s : ReadWindowState) (now : ℚ),
        tick (release_enforcement s) now = release_enforcement s) := by
  refine ⟨?_, ?_, ?_⟩
  · intro s
    rw [release_enforcement_eq s, release_enforcement_eq]
    simp
  · intro s
    rw [release_enforcement_eq]
    exact ⟨rfl, rfl, rfl, rfl, rfl, rfl, rfl, rfl⟩
  · intro s now
    exact tick_none _ _ (release_deadline s)

/-- C5: while LOCKED (countdown positive, so `remaining` stays positive),
the hook callback swallows every key-down, key-up and system-key event;
once the countdown has released (`remaining = 0`), every event is forwarded;
and entering RELEASED clears the hook handle and callback, both through
`release_enforcement` and through the expiring tick itself. -/
theorem keyboard_hook_swallows_while_locked :
    (∀ (remaining nCode : Int) (wParam : Nat),
        0 < remaining → nCode = 0 →
        (wParam = WM_KEYDOWN ∨ wParam = WM_SYSKEYDOWN ∨ wParam = WM_KEYUP ∨ wParam = WM_SYSKEYUP) →
        low_level_proc remaining nCode wParam = HookResult.block)
  ∧ (∀ (s : ReadWindowState) (d now : ℚ), s.deadline = some d → 0 < ⌈d - now⌉ →
        0 < (tick s now).remaining ∧ (tick s now).kb_hook = s.kb_hook)
  ∧ (∀ (nCode : Int) (wParam : Nat), low_level_proc 0 nCode wParam = HookResult.pass)
  ∧ (∀ s : ReadWindowState,
        (release_enforcement s).kb_hook = false ∧ (release_enforcement s).kb_proc = false)
  ∧ (∀ (s : ReadWindowState) (d now : ℚ), s.deadline = some d → ⌈d - now⌉ ≤ 0 →
        (tick s now).kb_hook = false ∧ (tick s now).remaining = 0) := by
  refine ⟨?_, ?_, ?_, ?_, ?_⟩
  · intro r n w hr hn hw
    rw [low_level_proc, if_pos ⟨hr, hn, hw⟩]
  · intro s d now hd hpos
    refine ⟨?_, ?_⟩
    · rw [tick_remaining_eq s d now hd]
      exact lt_of_lt_of_le hpos (le_max_right 0 _)
    · simp only [tick, hd]
      rw [if_neg (not_le.mpr hpos)]
      by_cases h2 : (⌈d - now⌉ : Int) ≠ s.remaining
      · rw [if_pos h2]
      · rw [if_neg h2]
  · intro n w
    simp [low_level_proc]
  · intro s
    rw [release_enforcement_eq]
    exact ⟨rfl, rfl⟩
  · intro s d now hd hexp
    rw [tick_of_expired s d now hd hexp]
    refine ⟨?_, ?_⟩
    · rw [release_enforcement_eq]
    · rw [release_remaining]

/-- Witness for C5: a key-down event with the countdown at 3 is blocked. -/
theorem keyboard_hook_swallows_while_locked_witness :
    (0 : Int) < 3 ∧ low_level_proc 3 0 WM_KEYDOWN = HookResult.block :=
  ⟨by decide,
    keyboard_hook_swallows_while_locked.1 3 0 WM_KEYDOWN (by decide) rfl (Or.inl rfl)⟩

/-- C6: `load_config` is all-or-nothing on failure and per-field on success:
a missing file, a read/parse exception, and a file parsing to a non-object
all yield the entire built-in default record; a parsed object is merged
shallowly — a lookup prefers the file's own top-level value and falls back
to the default for absent keys, and the `window` sub-record (when present as
an object) is likewise filled per absent sub-key only, while an absent or
non-object `window` is replaced by the default window record. -/
theorem load_config_allornothing_merge :
    load_config none = defaultConfig
  ∧ (∀ e : Unit, load_config (some (Except.error e)) = defaultConfig)
  ∧ (∀ j : Json, (∀ l, j ≠ Json.obj l) → load_config (some (Except.ok j)) = defaultConfig)
  ∧ (∀ (data : List (String × Json)) (k : String), k ≠ "window" →
        configLookup (load_config (some (Except.ok (Json.obj data)))) k
          = (lookupKey data k).or (lookupKey defaultFields k))
  ∧ (∀ (data w : List (String × Json)), lookupKey data "window" = some (Json.obj w) →
        configLookup (load_config (some (Except.ok (Json.obj data)))) "window"
          = some (Json.obj (mergeAbsent defaultWindowFields w))
      ∧ ∀ wk : String, lookupKey (mergeAbsent defaultWindowFields w) wk
          = (lookupKey w wk).or (lookupKey defaultWindowFields wk))
  ∧ (∀ data : List (String × Json), (∀ w, lookupKey data "window" ≠ some (Json.obj w)) →
        configLookup (load_config (some (Except.ok (Json.obj data)))) "window"
          = some (Json.obj defaultWindowFields)) := by
  refine ⟨rfl, fun e => rfl, ?_, ?_, ?_, ?_⟩
  · intro j hj
    cases j with
    | obj l => exact absurd rfl (hj l)
    | null => rfl
    | bool b => rfl
    | num n => rfl
    | str s => rfl
    | arr xs => rfl
  · intro data k hk
    simp only [load_config, configLookup]
    rw [lookup_fixWindow_ne _ _ hk, lookup_mergeAbsent defaultFields data k (by decide)]
  · intro data w hw
    have hm : lookupKey (mergeAbsent defaultFields data) "window" = some (Json.obj w) := by
      rw [lookup_mergeAbsent defaultFields data "window" (by decide), hw]
      rfl
    refine ⟨?_, ?_⟩
    · simp only [load_config, configLookup]
      rw [lookup_fixWindow_obj _ _ hm]
    · intro wk
      rw [lookup_mergeAbsent defaultWindowFields w wk (by decide)]
  · intro data hno
    have hmerge : lookupKey (mergeAbsent defaultFields data) "window"
        = (lookupKey data "window").or (some (Json.obj defaultWindowFields)) := by
      rw [lookup_mergeAbsent defaultFields data "window" (by decide)]
      rfl
    simp only [load_config, configLookup]
    cases hd : lookupKey data "window" with
    | none =>
      have h1 : lookupKey (mergeAbsent defaultFields data) "window"
          = some (Json.obj defaultWindowFields) := by
        rw [hmerge, hd]
        rfl
      rw [lookup_fixWindow_obj _ _ h1]
      rfl
    | some j =>
      have hother : ∀ w', lookupKey (mergeAbsent defaultFields data) "window"
          ≠ some (Json.obj w') := by
        intro w' hw'
        rw [hmerge, hd] at hw'
        have hj : j = Json.obj w' := by
          simpa [Option.or] using hw'
        exact hno w' (hj ▸ hd)
      rw [lookup_fixWindow_other _ hother]

/-- Witness for C6 at a one-key configuration object. -/
theorem load_config_allornothing_merge_witness :
    (("title" : String) ≠ "window")
  ∧ configLookup (load_config (some (Except.ok (Json.obj [("lock_seconds", Json.num 10)])))) "title"
      = (lookupKey [("lock_seconds", Json.num 10)] "title").or (lookupKey defaultFields "title") :=
  ⟨by decide,
    load_config_allornothing_merge.2.2.2.1 [("lock_seconds", Json.num 10)] "title" (by decide)⟩

/-- C7: a configuration file whose parsed content is exactly
`{"lock_seconds": 10}` loads to a record that agrees with the built-in
defaults on every field except `lock_seconds`, which is 10. -/
theorem load_config_lock_seconds_roundtrip :
    ∀ k : String,
      configLookup (load_config (some (Except.ok (Json.obj [("lock_seconds", Json.num 10)])))) k
        = if k = "lock_seconds" then some (Json.num 10) else configLookup defaultConfig k := by
  intro k
  have hres : load_config (some (Except.ok (Json.obj [("lock_seconds", Json.num 10)])))
      = Json.obj
          [ ("lock_seconds", Json.num 10)
          , ("title", Json.str "电子阅览室规章制度")
          , ("window", Json.obj defaultWindowFields)
          , ("font_point_size", Json.num 12)
          , ("requirements_markdown", Json.str "rules.md") ] := rfl
  rw [hres]
  by_cases h1 : k = "lock_seconds"
  · subst h1; rfl
  · by_cases h2 : k = "title"
    · subst h2; rfl
    · by_cases h3 : k = "window"
      · subst h3; rfl
      · by_cases h4 : k = "font_point_size"
        · subst h4; rfl
        · by_cases h5 : k = "requirements_markdown"
          · subst h5; rfl
          · simp [configLookup, defaultConfig, defaultFields, lookupKey, h1, h2, h3, h4, h5]

/-- C8: the effective countdown duration adopted by the window is
`max(1, lock_seconds)` for every integer `lock_seconds` in the
configuration, and the default 5 (already at least 1) when the field is
absent from the file or the file is missing. -/
theorem lock_seconds_coerced_min_one :
    (∀ (l : List (String × Json)) (v arg : Int),
        lookupKey l "lock_seconds" = some (Json.num v) →
        Except.map ReadWindowState.lock_seconds (mkReadWindow (Json.obj l) arg)
          = Except.ok (max 1 v))
  ∧ Except.map ReadWindowState.lock_seconds
      (mkReadWindow (load_config (some (Except.ok (Json.obj [])))) 5) = Except.ok (max 1 5)
  ∧ Except.map ReadWindowState.lock_seconds (mkReadWindow (load_config none) 5)
      = Except.ok (max 1 5) := by
  refine ⟨?_, rfl, rfl⟩
  intro l v arg h
  simp [mkReadWindow, windowLockSeconds, h, pyInt, Except.map]

/-- Witness for C8: a configured `lock_seconds` of -3 is coerced to 1. -/
theorem lock_seconds_coerced_min_one_witness :
    lookupKey [("lock_seconds", Json.num (-3))] "lock_seconds" = some (Json.num (-3))
  ∧ Except.map ReadWindowState.lock_seconds
      (mkReadWindow (Json.obj [("lock_seconds", Json.num (-3))]) 5) = Except.ok (max 1 (-3)) :=
  ⟨rfl, lock_seconds_coerced_min_one.1 [("lock_seconds", Json.num (-3))] (-3) 5 rfl⟩

/-- C9: a close request delivered to the window is always rejected — the
event is ignored (never accepted), and handling it leaves the whole
enforcement state exactly as it was. -/
theorem close_request_always_rejected :
    ∀ s : ReadWindowState, (closeEvent s).2 = false ∧ (closeEvent s).1 = s :=
  fun _ => ⟨rfl, rfl⟩

/-- C10: the hook callback blocks an event only when `remaining` is
positive; the expiring tick zeroes `remaining` and only then runs the
release sequence (which preserves `remaining`), so once the countdown has
expired every key event is forwarded even if the hook were still installed. -/
theorem hook_fail_open_after_expiry :
    (∀ (remaining nCode : Int) (wParam : Nat),
        low_level_proc remaining nCode wParam = HookResult.block → 0 < remaining)
  ∧ (∀ (s : ReadWindowState) (d now : ℚ), s.deadline = some d → ⌈d - now⌉ ≤ 0 →
        tick s now = release_enforcement { s with remaining := 0 })
  ∧ (∀ s : ReadWindowState, (release_enforcement s).remaining = s.remaining)
  ∧ (∀ (nCode : Int) (wParam : Nat), low_level_proc 0 nCode wParam = HookResult.pass) := by
  refine ⟨?_, tick_of_expired, release_remaining, ?_⟩
  · intro r n w h
    by_contra hr
    rw [low_level_proc, if_neg] at h
    · exact HookResult.noConfusion h
    · rintro ⟨hr', _⟩
      exact hr hr'
  · intro n w
    simp [low_level_proc]

/-- Witness for C10: a blocked key-down at countdown 2 implies positivity. -/
theorem hook_fail_open_after_expiry_witness :
    low_level_proc 2 0 WM_KEYDOWN = HookResult.block ∧ (0 : Int) < 2 :=
  ⟨by decide, hook_fail_open_after_expiry.1 2 0 WM_KEYDOWN (by decide)⟩

end ReadingApp
